import Mathlib

/-!
Shallow embedding of the UI logic of the MyTonWallet front-end components:
the password/PIN entry form (PasswordForm), the hardware-wallet selector
(LedgerSelectWallets) and the main dashboard swipe handling (Main).
Pure render decisions become Lean functions; event handlers become functions
from component state to new state plus an emitted effect trace.
-/

namespace MyTonWallet

/-! ## Auth configuration (PasswordForm withGlobal mapping)

In the source, isBiometricAuthEnabled is "authConfig is present and its kind
differs from password" and isNativeBiometricAuthEnabled is "authConfig is
present and its kind equals native-biometrics".  The optional authConfig is
modelled as an Option over the three kinds. -/

inductive AuthKind where
  | password
  | biometrics
  | nativeBiometrics
deriving DecidableEq

/-- Flag isBiometricAuthEnabled as computed in the withGlobal wrapper. -/
def isBiometricAuthEnabled : Option AuthKind → Bool
  | some AuthKind.password => false
  | some _ => true
  | none => false

/-- Flag isNativeBiometricAuthEnabled as computed in the withGlobal wrapper. -/
def isNativeBiometricAuthEnabled : Option AuthKind → Bool
  | some AuthKind.nativeBiometrics => true
  | _ => false

/-! ## PasswordForm: handleBiometrics

The call authApi.getPassword either resolves with a string (possibly empty,
hence JS-falsy) or throws an error whose message field may be absent or
empty.  The try/catch of the handler is total: the embedding returns the
effects instead of throwing, so no exception reaches the caller. -/

inductive BiometricOutcome where
  | resolved (secret : String)
  | thrown (message : Option String)
deriving DecidableEq

/-- Observable effects of one run of handleBiometrics: the list of onSubmit
calls made, and the value written by setLocalError (none when setLocalError
is not called). -/
structure BiometricsEffect where
  submitCalls : List String
  localErrorSet : Option String
deriving DecidableEq

/-- Key of the localized fallback message, lang applied to
"Something went wrong". -/
def somethingWentWrong : String := "Something went wrong"

/-- Handler handleBiometrics from PasswordForm: awaits authApi.getPassword;
an empty (falsy) result sets local error "Declined"; a non-empty result is
passed to onSubmit; a thrown error sets local error to the thrown message
when that is non-empty and otherwise to the localized fallback. -/
def handleBiometrics (lang : String → String) (outcome : BiometricOutcome) :
    BiometricsEffect :=
  match outcome with
  | BiometricOutcome.resolved secret =>
    if secret.isEmpty then
      { submitCalls := [], localErrorSet := some ("Declined") }
    else
      { submitCalls := [secret], localErrorSet := none }
  | BiometricOutcome.thrown message =>
    { submitCalls := []
      localErrorSet := some (match message with
        | some m => if m.isEmpty then lang somethingWentWrong else m
        | none => lang somethingWentWrong) }

/-! ## PasswordForm: render branches

The probe getIsNativeBiometricAuthSupported selects the PIN-pad branch
(early return); otherwise isBiometricAuthEnabled selects a static biometric
prompt over the password Input. -/

/-- Which of the three entry UIs render, as independent flags. -/
structure EntryRenderFlags where
  pinPad : Bool
  passwordField : Bool
  biometricPrompt : Bool
deriving DecidableEq

/-- Render decision of PasswordForm: the early return under the
native-support probe renders the PIN pad; the fallthrough renders the
biometric prompt when isBiometricAuthEnabled, else the password Input. -/
def entryRender (nativeBiometricSupported : Bool) (authConfig : Option AuthKind) :
    EntryRenderFlags :=
  { pinPad := nativeBiometricSupported
    biometricPrompt := !nativeBiometricSupported && isBiometricAuthEnabled authConfig
    passwordField := !nativeBiometricSupported && !(isBiometricAuthEnabled authConfig) }

/-- How many of the three entry UIs are rendered. -/
def EntryRenderFlags.renderedCount (f : EntryRenderFlags) : Nat :=
  (if f.pinPad then 1 else 0) + (if f.passwordField then 1 else 0)
    + (if f.biometricPrompt then 1 else 0)

/-! ## PasswordForm: error display and local-error lifecycle

The PIN pad title is lang applied to: localError-or-error when either is
non-empty (the JS expression localError || error picks localError first),
else the small-height title or the action name.  The password Input receives
as its error prop: lang of the external error when that is non-empty, else
the local error.  The only effect writing localError on a prop change is
keyed on isActive (it resets local error when the form becomes active); no
effect is keyed on the external error prop. -/

/-- String displayed as the PIN pad title. -/
def pinPadTitle (lang : String → String) (localError error : String)
    (isSmallHeight : Bool) (title actionName : String) : String :=
  let hasError := !localError.isEmpty || !error.isEmpty
  if hasError then lang (if localError.isEmpty then error else localError)
  else if isSmallHeight then lang title else lang actionName

/-- Error string handed to the password Input as its error prop. -/
def inputErrorShown (lang : String → String) (localError error : String) : String :=
  if error.isEmpty then localError else lang error

/-- Local error state after a props change: the only effect writing it fires
when isActive flips to true (setting it to the empty string); a change of the
external error prop alone leaves the local state untouched. -/
def localErrorAfterPropsChange (localError : String) (becameActive : Bool) : String :=
  if becameActive then "" else localError

/-! ## PasswordForm: submit enablement and auto-trigger -/

/-- Flag isSubmitDisabled: the JS negation of the password length. -/
def isSubmitDisabled (password : String) : Bool := password.length == 0

/-- The Enter-key capture effect returns undefined (no listener) when
isSubmitDisabled holds, and registers captureKeyboardListeners otherwise. -/
def enterKeyListenerRegistered (password : String) : Bool :=
  !(isSubmitDisabled password)

/-- Constant APPEAR_ANIMATION_DURATION_MS from PasswordForm. -/
def APPEAR_ANIMATION_DURATION_MS : Nat := 300

/-- One run of the biometrics auto-trigger effect: it bails out when
CAN_DELEGATE_BOTTOM_SHEET holds (the surface delegated to a secondary
bottom sheet handles its own trigger) or the form is inactive or biometric
auth is not enabled; otherwise it schedules exactly one handleBiometrics
call after a pause of APPEAR_ANIMATION_DURATION_MS.  Here some d means one
fetch is triggered after a delay of d ms; none means no fetch is triggered
by this run. -/
def autoTriggerBiometricsDelay (canDelegateBottomSheet isActive bioEnabled : Bool) :
    Option Nat :=
  if canDelegateBottomSheet || !isActive || !bioEnabled then none
  else some APPEAR_ANIMATION_DURATION_MS

/-! ## LedgerSelectWallets

Local state selectedAccountIndices starts as the empty list.
handleAccountToggle removes an index by filtering out every equal element
when the list includes it, and appends it (concat) otherwise. -/

/-- Handler handleAccountToggle from LedgerSelectWallets, as a pure state
update on the selection list. -/
def handleAccountToggle (selectedAccountIndices : List Nat) (index : Nat) : List Nat :=
  if selectedAccountIndices.contains index then
    selectedAccountIndices.filter (fun id => id != index)
  else
    selectedAccountIndices ++ [index]

/-- Events emitted by handleAddLedgerWallets, in program order. -/
inductive LedgerEvent where
  | dispatchAfterSelectHardwareWallets (hardwareSelectedIndices : List Nat)
  | close
deriving DecidableEq

/-- Whether an event is the store dispatch. -/
def LedgerEvent.isDispatch : LedgerEvent → Bool
  | LedgerEvent.dispatchAfterSelectHardwareWallets _ => true
  | LedgerEvent.close => false

/-- Handler handleAddLedgerWallets: calls the afterSelectHardwareWallets
action with hardwareSelectedIndices set to the current selection list, and
then calls onClose; the emitted trace lists the calls in program order. -/
def handleAddLedgerWallets (selectedAccountIndices : List Nat) : List LedgerEvent :=
  [LedgerEvent.dispatchAfterSelectHardwareWallets selectedAccountIndices,
   LedgerEvent.close]

/-- Rendered properties of one account row that the claims are about. -/
structure RenderedAccount where
  hasClickHandler : Bool
  isActiveVisual : Bool
deriving DecidableEq

/-- Function renderAccount from LedgerSelectWallets: isConnected is
membership of the address in alreadyConnectedList (computed by the caller
renderAccounts); onClick is undefined when connected, else the toggle;
the active visual class is applied when connected or when the selection
list includes the index. -/
def renderAccount (alreadyConnectedList : List String)
    (selectedAccountIndices : List Nat) (address : String) (index : Nat) :
    RenderedAccount :=
  let isConnected := alreadyConnectedList.contains address
  { hasClickHandler := !isConnected
    isActiveVisual := isConnected || selectedAccountIndices.contains index }

/-- Selection count shown in the header title when nonzero. -/
def ledgerHeaderCount (selectedAccountIndices : List Nat) : Nat :=
  selectedAccountIndices.length

/-! ## Main dashboard: portrait swipe handling

SwipeDirection and ContentTab are external enums; only the constructors used
by Main matter here.  handleTokenCardClose dispatches selectToken with an
undefined slug and setActiveContentTab with the Assets tab; the swipe
callback closes on a Right swipe returning true, and returns false for every
other direction. -/

inductive SwipeDirection where
  | Up
  | Down
  | Left
  | Right
deriving DecidableEq

inductive ContentTab where
  | Assets
  | Activity
deriving DecidableEq

/-- Pieces of store state written by handleTokenCardClose. -/
structure MainViewState where
  currentTokenSlug : Option String
  activeContentTab : ContentTab
deriving DecidableEq

/-- Handler handleTokenCardClose from Main. -/
def handleTokenCardClose (_s : MainViewState) : MainViewState :=
  { currentTokenSlug := none, activeContentTab := ContentTab.Assets }

/-- The onSwipe callback registered by captureEvents on the portrait
container: returns the new state and whether the gesture was handled. -/
def onPortraitSwipe (s : MainViewState) (direction : SwipeDirection) :
    MainViewState × Bool :=
  if direction = SwipeDirection.Right then (handleTokenCardClose s, true)
  else (s, false)

/-! ## Helper lemmas (shared) -/

/-- A string has length zero exactly when it is the empty string. -/
theorem string_length_eq_zero_iff (p : String) : p.length = 0 ↔ p = "" := by
  cases p with
  | mk data =>
    constructor
    · intro h
      have hd : data = [] := List.length_eq_zero.mp h
      subst hd
      rfl
    · intro h
      have hd : data = [] := by simpa using congrArg String.data h
      simp [String.length, hd]

/-- Membership after one toggle: the toggled index flips its membership,
every other element keeps it. -/
theorem mem_handleAccountToggle (sel : List Nat) (i x : Nat) :
    x ∈ handleAccountToggle sel i ↔ (if x = i then i ∉ sel else x ∈ sel) := by
  by_cases hxi : x = i
  · subst hxi
    by_cases hmem : x ∈ sel
    · simp [handleAccountToggle, hmem, List.mem_filter]
    · simp [handleAccountToggle, hmem]
  · by_cases hmem : i ∈ sel
    · simp [handleAccountToggle, hmem, hxi, List.mem_filter]
    · simp [handleAccountToggle, hmem, hxi]

/-- One toggle preserves distinctness of the selection list. -/
theorem nodup_handleAccountToggle (sel : List Nat) (i : Nat) (h : sel.Nodup) :
    (handleAccountToggle sel i).Nodup := by
  by_cases hmem : i ∈ sel
  · simpa [handleAccountToggle, hmem] using h.filter (fun id => id != i)
  · have hstep : handleAccountToggle sel i = sel ++ [i] := by
      simp [handleAccountToggle, hmem]
    rw [hstep]
    exact h.append (List.nodup_singleton i)
      (fun a ha hb => hmem (by rwa [List.mem_singleton.mp hb] at ha))

/-- Any click sequence starting from a distinct selection list keeps it
distinct. -/
theorem nodup_foldl_handleAccountToggle (clicks : List Nat) (sel : List Nat)
    (h : sel.Nodup) : (clicks.foldl handleAccountToggle sel).Nodup := by
  induction clicks generalizing sel with
  | nil => exact h
  | cons c cs ih => exact ih _ (nodup_handleAccountToggle sel c h)

/-! ## Claims -/

/-- C1 (counterexample): with local error "L" and external error "E" both
non-empty, the PIN-pad title surfaces the local error "L" rather than the
external error "E", and the arrival of the external error prop leaves the
local error state intact — refuting both the clearing and the universal
external-priority parts of the claim at this concrete input. -/
theorem pinpad_local_error_priority_counterexample :
    pinPadTitle id ("L") ("E") false ("Confirm Operation") ("Enter code") = "L" ∧
    ("L" : String) ≠ "E" ∧
    localErrorAfterPropsChange ("L") false = "L" := by
  refine ⟨by decide, by decide, rfl⟩

/-- C1 (amended): external-error priority holds in the password Input branch
(a non-empty external error is what the Input displays), but in the PIN-pad
title the local error takes priority over the external one, and a change of
the external error prop does not clear the local error state. -/
theorem error_display_priority (lang : String → String) (localError error : String)
    (isSmallHeight : Bool) (title actionName : String) :
    (error.isEmpty = false → inputErrorShown lang localError error = lang error) ∧
    (localError.isEmpty = false →
      pinPadTitle lang localError error isSmallHeight title actionName
        = lang localError) ∧
    localErrorAfterPropsChange localError false = localError := by
  refine ⟨fun he => ?_, fun hl => ?_, rfl⟩
  · simp [inputErrorShown, he]
  · simp [pinPadTitle, hl]

/-- C1 (witness for the amended claim), at local error "L" and external
error "E". -/
theorem error_display_priority_witness :
    inputErrorShown id ("L") ("E") = "E" ∧
    pinPadTitle id ("L") ("E") false ("t") ("a") = "L" :=
  ⟨(error_display_priority id ("L") ("E") false ("t") ("a")).1 (by decide),
   (error_display_priority id ("L") ("E") false ("t") ("a")).2.1 (by decide)⟩

/-- C2: for every outcome of the external biometric call — a non-empty
secret submits it exactly once and sets no local error; an empty (declined)
result sets local error "Declined" and does not submit; a throw with a
non-empty message sets that message as local error and does not submit;
a throw with a missing or empty message sets the localized fallback and does
not submit.  Totality of the embedding reflects the catch-all: no exception
propagates. -/
theorem biometric_fetch_outcomes (lang : String → String) (outcome : BiometricOutcome) :
    (∀ s, outcome = BiometricOutcome.resolved s → s.isEmpty = false →
      (handleBiometrics lang outcome).submitCalls = [s] ∧
      (handleBiometrics lang outcome).localErrorSet = none) ∧
    (∀ s, outcome = BiometricOutcome.resolved s → s.isEmpty = true →
      (handleBiometrics lang outcome).submitCalls = [] ∧
      (handleBiometrics lang outcome).localErrorSet = some ("Declined")) ∧
    (∀ msg, outcome = BiometricOutcome.thrown (some msg) → msg.isEmpty = false →
      (handleBiometrics lang outcome).submitCalls = [] ∧
      (handleBiometrics lang outcome).localErrorSet = some msg) ∧
    (∀ m, outcome = BiometricOutcome.thrown m →
      (m = none ∨ ∃ msg, m = some msg ∧ msg.isEmpty = true) →
      (handleBiometrics lang outcome).submitCalls = [] ∧
      (handleBiometrics lang outcome).localErrorSet
        = some (lang somethingWentWrong)) := by
  refine ⟨?_, ?_, ?_, ?_⟩
  · rintro s rfl hs
    simp [handleBiometrics, hs]
  · rintro s rfl hs
    simp [handleBiometrics, hs]
  · rintro msg rfl hm
    simp [handleBiometrics, hm]
  · rintro m rfl hm
    rcases hm with rfl | ⟨msg, rfl, hmsg⟩
    · simp [handleBiometrics]
    · simp [handleBiometrics, hmsg]

/-- C2 (witness): the successful fetch with secret "abc123" submits it
exactly once and sets no local error. -/
theorem biometric_fetch_outcomes_witness :
    (handleBiometrics id (BiometricOutcome.resolved ("abc123"))).submitCalls
      = [("abc123")] ∧
    (handleBiometrics id (BiometricOutcome.resolved ("abc123"))).localErrorSet
      = none :=
  (biometric_fetch_outcomes id (BiometricOutcome.resolved ("abc123"))).1
    ("abc123") rfl (by decide)

/-- C3: for every value of the native-biometric-support probe and every
auth-config variant (including an absent config), exactly one of the PIN
pad, password field and biometric-prompt message renders. -/
theorem exactly_one_entry_ui (nativeSupported : Bool) (authConfig : Option AuthKind) :
    (entryRender nativeSupported authConfig).renderedCount = 1 := by
  cases nativeSupported <;> rcases authConfig with _ | k
  · rfl
  · cases k <;> rfl
  · rfl
  · cases k <;> rfl

/-- C4: one toggle adds the index when absent and removes it when present
(membership of every element follows this rule), and toggling the same index
twice restores exactly the prior membership. -/
theorem toggle_membership_involution (sel : List Nat) (index x : Nat) :
    (x ∈ handleAccountToggle sel index ↔
      (if x = index then index ∉ sel else x ∈ sel)) ∧
    (x ∈ handleAccountToggle (handleAccountToggle sel index) index ↔ x ∈ sel) := by
  refine ⟨mem_handleAccountToggle sel index x, ?_⟩
  by_cases hxi : x = index
  · subst hxi
    rw [mem_handleAccountToggle, if_pos rfl, mem_handleAccountToggle, if_pos rfl]
    exact not_not
  · rw [mem_handleAccountToggle, if_neg hxi, mem_handleAccountToggle, if_neg hxi]

/-- C5: from the empty selection, toggling 1 then 3 yields the selection
list [1, 3]; submitting it emits exactly one dispatch, carrying
hardwareSelectedIndices [1, 3], followed by the close call. -/
theorem submit_selection_one_three :
    handleAccountToggle (handleAccountToggle [] 1) 3 = [1, 3] ∧
    handleAddLedgerWallets [1, 3]
      = [LedgerEvent.dispatchAfterSelectHardwareWallets [1, 3],
         LedgerEvent.close] ∧
    ((handleAddLedgerWallets [1, 3]).filter LedgerEvent.isDispatch).length = 1 := by
  refine ⟨by decide, rfl, rfl⟩

/-- C6: an already-linked (connected) candidate renders with no click
handler and in the active/connected visual state, whatever the selection
list is; in particular no sequence of toggle clicks can take it out of the
connected visual state. -/
theorem connected_account_locked (linked : List String) (sel : List Nat)
    (addr : String) (i : Nat) (h : linked.contains addr = true) :
    (renderAccount linked sel addr i).hasClickHandler = false ∧
    (renderAccount linked sel addr i).isActiveVisual = true ∧
    ∀ clicks : List Nat,
      (renderAccount linked (clicks.foldl handleAccountToggle sel) addr i).isActiveVisual
        = true := by
  have hm : addr ∈ linked := by simpa using h
  refine ⟨?_, ?_, fun clicks => ?_⟩ <;> simp [renderAccount, hm]

/-- C6 (witness): the connected address a1 renders locked, also after the
toggle click sequence [2]. -/
theorem connected_account_locked_witness :
    (renderAccount [("a1")] [] ("a1") 0).hasClickHandler = false ∧
    (renderAccount [("a1")] (([2] : List Nat).foldl handleAccountToggle [])
      ("a1") 0).isActiveVisual = true :=
  ⟨(connected_account_locked [("a1")] [] ("a1") 0 (by decide)).1,
   (connected_account_locked [("a1")] [] ("a1") 0 (by decide)).2.2 [2]⟩

/-- C7: in the password-field path the submit button is disabled exactly
when the entered password is empty, and the Enter-key listener is registered
exactly when submission is enabled. -/
theorem submit_disabled_iff_empty (password : String) :
    (isSubmitDisabled password = true ↔ password = "") ∧
    (enterKeyListenerRegistered password = true ↔ isSubmitDisabled password = false) := by
  constructor
  · simp only [isSubmitDisabled, beq_iff_eq]
    exact string_length_eq_zero_iff password
  · simp [enterKeyListenerRegistered]

/-- C8: one run of the auto-trigger effect triggers no biometric fetch when
the bottom sheet is delegated, and triggers exactly one fetch after the
fixed post-animation delay when the form is active with a biometric-enabled
config and no delegation. -/
theorem auto_trigger_biometrics (canDelegate isActive bioEnabled : Bool) :
    (canDelegate = true →
      autoTriggerBiometricsDelay canDelegate isActive bioEnabled = none) ∧
    (canDelegate = false → isActive = true → bioEnabled = true →
      autoTriggerBiometricsDelay canDelegate isActive bioEnabled
        = some APPEAR_ANIMATION_DURATION_MS) := by
  constructor
  · rintro rfl
    rfl
  · rintro rfl rfl rfl
    rfl

/-- C8 (witness): with no delegation, an active form and biometrics enabled,
exactly one fetch fires after the 300 ms delay. -/
theorem auto_trigger_biometrics_witness :
    autoTriggerBiometricsDelay false true true = some APPEAR_ANIMATION_DURATION_MS :=
  (auto_trigger_biometrics false true true).2 rfl rfl rfl

/-- C9: while a token is focused, a Right swipe on the portrait container
clears the focused token, switches the content tab to Assets and reports
handled; a swipe in any other direction leaves the state unchanged and
reports not handled. -/
theorem swipe_right_closes_token (s : MainViewState) (tok : String)
    (_hfocus : s.currentTokenSlug = some tok) (d : SwipeDirection) :
    (d = SwipeDirection.Right →
      onPortraitSwipe s d
        = ({ currentTokenSlug := none, activeContentTab := ContentTab.Assets }, true)) ∧
    (d ≠ SwipeDirection.Right → onPortraitSwipe s d = (s, false)) := by
  constructor
  · rintro rfl
    rfl
  · intro hd
    simp [onPortraitSwipe, hd]

/-- C9 (witness): with the token ton focused, a Right swipe closes and is
handled while a Left swipe changes nothing and is not handled. -/
theorem swipe_right_closes_token_witness :
    onPortraitSwipe ⟨some ("ton"), ContentTab.Activity⟩ SwipeDirection.Right
      = (⟨none, ContentTab.Assets⟩, true) ∧
    onPortraitSwipe ⟨some ("ton"), ContentTab.Activity⟩ SwipeDirection.Left
      = (⟨some ("ton"), ContentTab.Activity⟩, false) :=
  ⟨(swipe_right_closes_token ⟨some ("ton"), ContentTab.Activity⟩ ("ton") rfl
      SwipeDirection.Right).1 rfl,
   (swipe_right_closes_token ⟨some ("ton"), ContentTab.Activity⟩ ("ton") rfl
      SwipeDirection.Left).2 (by decide)⟩

/-- C10: after any sequence of toggle clicks starting from the empty
selection, the selection list has pairwise distinct elements, and the count
shown in the header title equals the number of distinct selected
candidates. -/
theorem selection_list_nodup (clicks : List Nat) :
    (clicks.foldl handleAccountToggle []).Nodup ∧
    ledgerHeaderCount (clicks.foldl handleAccountToggle [])
      = (clicks.foldl handleAccountToggle []).dedup.length := by
  have h := nodup_foldl_handleAccountToggle clicks [] List.nodup_nil
  refine ⟨h, ?_⟩
  rw [h.dedup]
  rfl

end MyTonWallet
